import Mathlib

/-!
Verification of the report-page component
(`src/app/report/[userId]/page.tsx`).

The page is a single React component. We shallowly embed its state and
handlers: page state is an explicit record, and the asynchronous submit
handler is modelled as a function from the current state and the network's
response to a trace of state-update / request actions, folded into a final
state.

JavaScript numbers are modelled as `Option DecNum`: `none` stands for
`NaN`, and a finite value is an exact decimal `mantissa / 10 ^ scale`.
This is faithful here because every finite IEEE-754 double is an exact
decimal fraction and the page performs no arithmetic on numbers — it only
parses, stores, forwards and truth-tests them.
-/

namespace ReportPage

/-- An exact decimal number `mantissa / 10 ^ scale`. -/
structure DecNum where
  mantissa : ℤ
  scale : ℕ
  deriving Repr, DecidableEq

/-- The rational value of a decimal. -/
def DecNum.toRat (d : DecNum) : ℚ := d.mantissa / 10 ^ d.scale

/-- A JavaScript number: `none` is `NaN`, `some d` a finite value. -/
abbrev JSNum := Option DecNum

/-- JavaScript truthiness of a number: `NaN` and `0` are falsy. -/
def jsNumTruthy : JSNum → Bool
  | none => false
  | some d => d.mantissa ≠ 0

/-- Digits accumulated into a natural number, most significant first. -/
def digitsToNat (ds : List Char) : ℕ :=
  ds.foldl (fun a c => a * 10 + (c.toNat - 48)) 0

/-- `parseFloat` on a character list: optional sign, integer digits,
optional fractional digits; any trailing garbage is ignored (JavaScript
`parseFloat` parses the longest numeric prefix).  `none` is `NaN` (no
digits at all). -/
def parseFloatCore (l : List Char) : Option DecNum :=
  let signAndRest : ℤ × List Char :=
    match l with
    | '-' :: rest => (-1, rest)
    | '+' :: rest => (1, rest)
    | _ => (1, l)
  let ip := signAndRest.2.takeWhile Char.isDigit
  let l2 := signAndRest.2.dropWhile Char.isDigit
  let fp : List Char :=
    match l2 with
    | '.' :: rest => rest.takeWhile Char.isDigit
    | _ => []
  if ip.isEmpty ∧ fp.isEmpty then none
  else
    some { mantissa := signAndRest.1 *
             ((digitsToNat ip : ℤ) * 10 ^ fp.length + digitsToNat fp),
           scale := fp.length }

/-- JavaScript `parseFloat` (leading spaces skipped). -/
def parseFloat (s : String) : JSNum :=
  parseFloatCore (s.toList.dropWhile (· = ' '))

/-- A geocoding suggestion as returned by the search service:
`{ lat: string; lon: string; display_name: string }` (line 36). -/
structure Suggestion where
  lat : String
  lon : String
  display_name : String
  deriving Repr, DecidableEq

/-- The component's state hooks (lines 28–39).  `selectedLocation` is
`{lat, lng} | null`; rating values are naturals (the UI offers 0 = unset
and buttons 1–10). -/
structure PageState where
  userId : String
  selectedLocation : Option (JSNum × JSNum)
  description : String
  submitMessage : String
  submitting : Bool
  searchQuery : String
  suggestions : List Suggestion
  rating : ℕ
  hoverRating : ℕ
  deriving Repr, DecidableEq

/-! ### Query parameters and initial location (lines 22–30, 45–62) -/

/-- `latParam ? parseFloat(latParam) : null` (line 25): an absent or empty
query string is `null`; otherwise the parsed number (possibly `NaN`). -/
def fromQuery (param : Option String) : Option JSNum :=
  match param with
  | none => none
  | some s => if s = "" then none else some (parseFloat s)

/-- Truthiness of `latFromQuery` / `lngFromQuery`: `null`, `NaN` and `0`
are falsy. -/
def queryTruthy (v : Option JSNum) : Bool :=
  match v with
  | none => false
  | some n => jsNumTruthy n

/-- Initial `selectedLocation`:
`latFromQuery && lngFromQuery ? { lat: latFromQuery, lng: lngFromQuery } : null`
(lines 28–30). -/
def initialLocation (latParam lngParam : Option String) : Option (JSNum × JSNum) :=
  match fromQuery latParam, fromQuery lngParam with
  | some a, some b => if jsNumTruthy a ∧ jsNumTruthy b then some (a, b) else none
  | _, _ => none

/-- The geolocation effect (lines 45–62) issues its one-shot request iff
`!latFromQuery && !lngFromQuery` and the capability exists. -/
def requestsGeolocation (latParam lngParam : Option String) (geoAvailable : Bool) : Bool :=
  (¬ queryTruthy (fromQuery latParam) ∧ ¬ queryTruthy (fromQuery lngParam)) ∧ geoAvailable

/-- Outcome of the one-shot geolocation request. -/
inductive GeoResult where
  | position (lat lng : DecNum)
  | error (msg : String)
  deriving Repr, DecidableEq

/-- The geolocation callbacks (lines 49–57): success stores the position;
the error callback only logs, changing no state. -/
def geoEffect (s : PageState) (res : GeoResult) : PageState :=
  match res with
  | .position lat lng => { s with selectedLocation := some (some lat, some lng) }
  | .error _ => s

/-! ### Submit handler (lines 94–153) -/

/-- The JSON body built at lines 100–106, with exactly the fields
`userid`, `description`, `latt`, `long`, `rating`. -/
structure RequestBody where
  userid : String
  description : String
  latt : JSNum
  long : JSNum
  rating : ℕ
  deriving Repr, DecidableEq

/-- The submission response body, classified by how lines 123–131 treat
it: empty text (`data = {}`), text that is not valid JSON
(`data = { status: textResponse }`), or a JSON object whose optional
`message` field we record. -/
inductive RespBody where
  | empty
  | invalidJson (raw : String)
  | jsonObj (message : Option String)
  deriving Repr, DecidableEq

/-- What `await fetch(...)` produces: an HTTP response (status plus body)
or a rejection whose error message lands in the `catch`. -/
inductive NetResult where
  | response (status : ℕ) (body : RespBody)
  | netError (msg : String)
  deriving Repr, DecidableEq

/-- `response.ok`: status in the 200–299 range. -/
def respOk (status : ℕ) : Bool := 200 ≤ status ∧ status < 300

/-- The `message` field of the parsed `data` object; `undefined` (`none`)
for an empty body (`data = {}`) and for invalid JSON
(`data = { status: textResponse }`). -/
def parsedMessage : RespBody → Option String
  | .empty => none
  | .invalidJson _ => none
  | .jsonObj m => m

/-- `data.message || ``HTTP error! status: ${response.status}``` (line
139): the `message` field when present and truthy (non-empty), otherwise
the generic HTTP-status text. -/
def errMsgOf (status : ℕ) (body : RespBody) : String :=
  match parsedMessage body with
  | some m => if m = "" then "HTTP error! status: " ++ toString status else m
  | none => "HTTP error! status: " ++ toString status

/-- One observable step taken by a handler: a `setXxx` state update or an
outgoing POST. -/
inductive Action where
  | setSelectedLocation (v : Option (JSNum × JSNum))
  | setDescription (v : String)
  | setSubmitMessage (v : String)
  | setSubmitting (v : Bool)
  | setSearchQuery (v : String)
  | setSuggestions (v : List Suggestion)
  | setRating (v : ℕ)
  | setHoverRating (v : ℕ)
  | postRequest (body : RequestBody)
  deriving Repr, DecidableEq

/-- Effect of a single action on the page state (a POST changes no
state). -/
def applyAction (s : PageState) : Action → PageState
  | .setSelectedLocation v => { s with selectedLocation := v }
  | .setDescription v => { s with description := v }
  | .setSubmitMessage v => { s with submitMessage := v }
  | .setSubmitting v => { s with submitting := v }
  | .setSearchQuery v => { s with searchQuery := v }
  | .setSuggestions v => { s with suggestions := v }
  | .setRating v => { s with rating := v }
  | .setHoverRating v => { s with hoverRating := v }
  | .postRequest _ => s

/-- Fold a trace of actions into the state. -/
def runActions (s : PageState) (as : List Action) : PageState :=
  as.foldl applyAction s

/-- The POST requests occurring in a trace. -/
def postedRequests (as : List Action) : List RequestBody :=
  as.filterMap fun a =>
    match a with
    | .postRequest b => some b
    | _ => none

/-- The validation-failure message set at line 96. -/
def validationMsg : String :=
  "Please fill all fields and select location and rating."

/-- `handleSubmit` (lines 94–153), as the trace of actions it performs
given the network's answer `net` to its POST.  Validation
(`!description || !selectedLocation || rating === 0`, line 95) short
circuits with the failure message; otherwise the handler sets
`submitting`, clears the message, POSTs the body, handles the response
(success resets the form, any thrown error sets the failure message), and
the `finally` clears `submitting` last. -/
def handleSubmitTrace (s : PageState) (net : NetResult) : List Action :=
  match s.selectedLocation with
  | none => [.setSubmitMessage validationMsg]
  | some loc =>
    if s.description = "" ∨ s.rating = 0 then
      [.setSubmitMessage validationMsg]
    else
      let body : RequestBody :=
        { userid := s.userId, description := s.description,
          latt := loc.1, long := loc.2, rating := s.rating }
      [.setSubmitting true, .setSubmitMessage "", .postRequest body] ++
      (match net with
       | .netError m =>
         [.setSubmitMessage ("Failed to submit report. " ++ m)]
       | .response status rbody =>
         if respOk status then
           [.setSubmitMessage "Report submitted successfully!",
            .setDescription "", .setRating 0, .setSelectedLocation none]
         else
           [.setSubmitMessage
             ("Failed to submit report. " ++ errMsgOf status rbody)]) ++
      [.setSubmitting false]

/-- The state after `handleSubmit` completes. -/
def handleSubmit (s : PageState) (net : NetResult) : PageState :=
  runActions s (handleSubmitTrace s net)

/-! ### Search suggestions (lines 64–92) -/

/-- Selecting a suggestion (lines 81–85): coordinate from
`parseFloat(place.lat)`, `parseFloat(place.lon)`; query text becomes the
display name; suggestions cleared. -/
def handleSuggestionClick (s : PageState) (place : Suggestion) : PageState :=
  { s with
    selectedLocation := some (parseFloat place.lat, parseFloat place.lon),
    searchQuery := place.display_name,
    suggestions := [] }

/-- Submitting the search form (lines 87–92): clicks the first suggestion
when the list is non-empty, otherwise does nothing. -/
def handleSearchSubmit (s : PageState) : PageState :=
  match s.suggestions with
  | [] => s
  | place :: _ => handleSuggestionClick s place

/-- State relevant to the debounced search effect (lines 64–79):
the query, the suggestion list, and the pending `setTimeout` (its fire
time and the query captured by its closure).  Each run of the effect
replaces the pending timer; the cleanup `clearTimeout` is the overwrite. -/
structure SearchState where
  searchQuery : String
  suggestions : List Suggestion
  pending : Option (ℕ × String)
  deriving Repr, DecidableEq

/-- Events driving the search effect: a keystroke at time `t` changing
the query (which re-runs the effect, cancelling the previous timer and
scheduling a new one at `t + 300`), or the pending timer firing, with the
geocoding response (`none` = fetch failed) available should it request. -/
inductive SearchEvent where
  | keystroke (t : ℕ) (q : String)
  | timerFire (resp : Option (List Suggestion))
  deriving Repr, DecidableEq

/-- One step of the search effect; the second component is the search
query of an issued geocoding request, if any.  When the timer fires
(lines 65–76): queries longer than 2 characters fetch and store the
response (empty list on failure), shorter ones just clear the
suggestions. -/
def searchStep (s : SearchState) (e : SearchEvent) : SearchState × Option String :=
  match e with
  | .keystroke t q =>
    ({ s with searchQuery := q, pending := some (t + 300, q) }, none)
  | .timerFire resp =>
    match s.pending with
    | none => (s, none)
    | some (_, q) =>
      if q.length > 2 then
        ({ s with suggestions := (match resp with | some data => data | none => []),
                  pending := none }, some q)
      else
        ({ s with suggestions := [], pending := none }, none)

/-- Timers that actually fire for a time-stamped keystroke sequence: the
timer scheduled at `t + 300` by the keystroke at `t` is cancelled iff a
later keystroke arrives strictly before it fires; otherwise it fires at
`t + 300` with its captured query. -/
def debounceFires : List (ℕ × String) → List (ℕ × String)
  | [] => []
  | [(t, q)] => [(t + 300, q)]
  | (t, q) :: (t', q') :: rest =>
    (if t' < t + 300 then [] else [(t + 300, q)]) ++
      debounceFires ((t', q') :: rest)

/-- Geocoding requests issued for a keystroke sequence: a firing timer
requests only when its captured query is longer than 2 characters. -/
def debounceRequests (ks : List (ℕ × String)) : List (ℕ × String) :=
  (debounceFires ks).filter fun p => 2 < p.2.length

/-! ### Status line (lines 262–266) -/

/-- `pat` occurs as a contiguous substring of the character list. -/
def isSubstrAux (pat : List Char) : List Char → Bool
  | [] => pat.isEmpty
  | c :: rest => pat.isPrefixOf (c :: rest) || isSubstrAux pat rest

/-- JavaScript `s.includes(pat)`. -/
def strIncludes (s pat : String) : Bool :=
  isSubstrAux pat.toList s.toList

/-- The status line's styling (line 263): failure styling (red) exactly
when the message contains `"Failed"`; otherwise success styling (green). -/
def failureStyled (msg : String) : Bool :=
  strIncludes msg "Failed"

/-! ### General lemmas -/

/-- Truthiness of a finite number agrees with its rational value being
non-zero. -/
theorem jsNumTruthy_toRat (d : DecNum) :
    jsNumTruthy (some d) = true ↔ d.toRat ≠ 0 := by
  have h10 : ((10 : ℚ) ^ d.scale) ≠ 0 := by positivity
  simp [jsNumTruthy, DecNum.toRat, div_eq_zero_iff, h10]

/-- Every failure message produced by the submit handler starts with
`"Failed to submit report. "`, hence contains `"Failed"`. -/
theorem strIncludes_failed (x : String) :
    strIncludes ("Failed to submit report. " ++ x) "Failed" = true := rfl

/-- A sample state passing submit validation. -/
def sampleValid : PageState :=
  { userId := "u1",
    selectedLocation := some (some ⟨1907, 2⟩, some ⟨7287, 2⟩),
    description := "Pothole here",
    submitMessage := "",
    submitting := false,
    searchQuery := "Mumbai",
    suggestions := [],
    rating := 7,
    hoverRating := 0 }

/-- A sample state failing submit validation (empty description). -/
def sampleInvalid : PageState :=
  { sampleValid with description := "" }

/-! ### Claims -/

/-- C1: a report submission network request is issued only when the
description is non-empty, a coordinate is set, and the rating is in
[1,10]; if any of these fails, `handleSubmit` sets a validation failure
message and performs no network call.  (The rating state is 0 initially
and only ever set from the 1–10 buttons or reset to 0, whence the
hypothesis `s.rating ≤ 10`.) -/
theorem submit_validation_gate (s : PageState) (net : NetResult)
    (hrat : s.rating ≤ 10) :
    (postedRequests (handleSubmitTrace s net) ≠ [] ↔
      s.description ≠ "" ∧ s.selectedLocation ≠ none ∧
        1 ≤ s.rating ∧ s.rating ≤ 10) ∧
    ((s.description = "" ∨ s.selectedLocation = none ∨ s.rating = 0) →
      postedRequests (handleSubmitTrace s net) = [] ∧
      handleSubmit s net = { s with submitMessage := validationMsg }) := by
  rcases hloc : s.selectedLocation with _ | loc
  · simp [handleSubmitTrace, hloc, postedRequests, handleSubmit, runActions,
      applyAction]
  · by_cases hde : s.description = ""
    · simp [handleSubmitTrace, hloc, hde, postedRequests, handleSubmit,
        runActions, applyAction]
    · by_cases hr : s.rating = 0
      · simp [handleSubmitTrace, hloc, hde, hr, postedRequests, handleSubmit,
          runActions, applyAction]
      · constructor
        · constructor
          · intro _
            exact ⟨hde, by simp [hloc], Nat.one_le_iff_ne_zero.mpr hr, hrat⟩
          · intro _
            rcases net with ⟨status, rbody⟩ | m
            · by_cases hok : respOk status <;>
                simp [handleSubmitTrace, hloc, hde, hr, hok, postedRequests]
            · simp [handleSubmitTrace, hloc, hde, hr, postedRequests]
        · rintro (h | h | h)
          · exact absurd h hde
          · exact absurd h (by simp)
          · exact absurd h hr

/-- C1 witness: a concrete invalid draft (empty description) posts
nothing and only sets the validation message. -/
theorem submit_validation_gate_witness :
    postedRequests (handleSubmitTrace sampleInvalid (.response 200 .empty)) = [] ∧
    handleSubmit sampleInvalid (.response 200 .empty) =
      { sampleInvalid with submitMessage := validationMsg } :=
  (submit_validation_gate sampleInvalid (.response 200 .empty) (by decide)).2
    (Or.inl rfl)

/-- C2: on validation success, `handleSubmit` issues a single POST whose
body has exactly the fields `userid`, `description`, `latt`, `long`,
`rating` carrying the user id, description, coordinate latitude and
longitude and rating; on any HTTP-ok response (whatever the body,
including the empty body parsed as `{}`) a success message is shown and
description, rating and coordinate are reset. -/
theorem submit_success_request_and_reset (s : PageState) (loc : JSNum × JSNum)
    (status : ℕ) (rbody : RespBody)
    (hd : s.description ≠ "") (hloc : s.selectedLocation = some loc)
    (hr : s.rating ≠ 0) (hok : respOk status = true) :
    postedRequests (handleSubmitTrace s (.response status rbody)) =
      [{ userid := s.userId, description := s.description,
         latt := loc.1, long := loc.2, rating := s.rating }] ∧
    handleSubmit s (.response status rbody) =
      { s with description := "", rating := 0, selectedLocation := none,
               submitMessage := "Report submitted successfully!",
               submitting := false } := by
  simp [handleSubmitTrace, hloc, hd, hr, hok, postedRequests, handleSubmit,
    runActions, applyAction]

/-- C2 witness: the spec's worked example — description "Pothole here",
coordinate (19.07, 72.87), rating 7, user "u1", HTTP 200 with empty
body. -/
theorem submit_success_request_and_reset_witness :
    postedRequests (handleSubmitTrace sampleValid (.response 200 .empty)) =
      [{ userid := "u1", description := "Pothole here",
         latt := some ⟨1907, 2⟩, long := some ⟨7287, 2⟩, rating := 7 }] ∧
    handleSubmit sampleValid (.response 200 .empty) =
      { sampleValid with description := "", rating := 0,
                         selectedLocation := none,
                         submitMessage := "Report submitted successfully!",
                         submitting := false } :=
  submit_success_request_and_reset sampleValid
    (some ⟨1907, 2⟩, some ⟨7287, 2⟩) 200 .empty (by decide) rfl
    (by decide) (by decide)

/-- C3 counterexample: HTTP 500 whose body `"oops"` is not valid JSON.
The parse failure stores the raw text under `data.status`, not
`data.message`, so the user sees the generic HTTP-status message — the
raw response text does not appear in it, contrary to the claim. -/
theorem submit_invalid_json_generic_message :
    (handleSubmit sampleValid (.response 500 (.invalidJson "oops"))).submitMessage =
      "Failed to submit report. HTTP error! status: 500" ∧
    strIncludes
      (handleSubmit sampleValid (.response 500 (.invalidJson "oops"))).submitMessage
      "oops" = false := by decide

/-- C3 (amended): on a failed HTTP response the failure message carries
the response's `message` field when present and non-empty, and otherwise
— including when the body is not valid JSON or empty — the generic
HTTP-status message; description, rating and coordinate are left
unchanged; and for every network outcome the trace's last step clears the
submitting flag. -/
theorem submit_failure_message_and_frame (s : PageState) (loc : JSNum × JSNum)
    (net : NetResult)
    (hd : s.description ≠ "") (hloc : s.selectedLocation = some loc)
    (hr : s.rating ≠ 0) :
    (handleSubmitTrace s net).getLast? = some (.setSubmitting false) ∧
    (handleSubmit s net).submitting = false ∧
    (∀ status rbody, net = .response status rbody → respOk status = false →
      handleSubmit s net =
        { s with submitMessage :=
                   "Failed to submit report. " ++ errMsgOf status rbody,
                 submitting := false }) := by
  refine ⟨?_, ?_, ?_⟩
  · rcases net with ⟨status, rbody⟩ | m
    · by_cases hok : respOk status <;>
        simp [handleSubmitTrace, hloc, hd, hr, hok]
    · simp [handleSubmitTrace, hloc, hd, hr]
  · rcases net with ⟨status, rbody⟩ | m
    · by_cases hok : respOk status <;>
        simp [handleSubmitTrace, hloc, hd, hr, hok, handleSubmit,
          runActions, applyAction]
    · simp [handleSubmitTrace, hloc, hd, hr, handleSubmit, runActions,
        applyAction]
  · rintro status rbody rfl hok
    simp [handleSubmitTrace, hloc, hd, hr, hok, handleSubmit, runActions,
      applyAction]

/-- C3 witness: the spec's worked example — HTTP 500 with body
`{"message":"db error"}`: the message carries "db error", the fields are
not reset, the submitting flag ends false and is cleared last. -/
theorem submit_failure_message_and_frame_witness :
    (handleSubmitTrace sampleValid
        (.response 500 (.jsonObj (some "db error")))).getLast? =
      some (.setSubmitting false) ∧
    (handleSubmit sampleValid
        (.response 500 (.jsonObj (some "db error")))).submitting = false ∧
    (∀ status rbody,
      (NetResult.response 500 (.jsonObj (some "db error"))) =
        .response status rbody →
      respOk status = false →
      handleSubmit sampleValid (.response 500 (.jsonObj (some "db error"))) =
        { sampleValid with
            submitMessage := "Failed to submit report. " ++ errMsgOf status rbody,
            submitting := false }) :=
  submit_failure_message_and_frame sampleValid
    (some ⟨1907, 2⟩, some ⟨7287, 2⟩)
    (.response 500 (.jsonObj (some "db error")))
    (by decide) rfl (by decide)

/-- C4 counterexample: `lat="0"`, `lng="72.87"` — both strings parse as
valid numbers, yet the initial coordinate is `null`, because the parsed
latitude `0` is falsy in the `latFromQuery && lngFromQuery` test. -/
theorem query_zero_lat_treated_absent :
    parseFloat "0" = some ⟨0, 0⟩ ∧
    parseFloat "72.87" = some ⟨7287, 2⟩ ∧
    initialLocation (some "0") (some "72.87") = none := by decide

/-- C4 (amended): for every query pair (lat, lng) where both strings are
non-empty and parse as valid *non-zero* numbers, the initial coordinate
equals exactly that pair and no geolocation request is issued; a value
that is absent, empty, non-numeric, or zero is treated as absent (the
conjunct quantified over all parameter pairs: whenever either value is
not truthy the initial coordinate is `null`). -/
theorem initial_location_from_query (latS lngS : String) (a b : DecNum)
    (ha : parseFloat latS = some a) (hb : parseFloat lngS = some b)
    (ha0 : a.mantissa ≠ 0) (hb0 : b.mantissa ≠ 0)
    (hlne : latS ≠ "") (hgne : lngS ≠ "") :
    initialLocation (some latS) (some lngS) = some (some a, some b) ∧
    (∀ g, requestsGeolocation (some latS) (some lngS) g = false) ∧
    (∀ latP lngP : Option String,
      ¬(queryTruthy (fromQuery latP) = true ∧
        queryTruthy (fromQuery lngP) = true) →
      initialLocation latP lngP = none) := by
  refine ⟨?_, ?_, ?_⟩
  · simp [initialLocation, fromQuery, hlne, hgne, ha, hb, jsNumTruthy, ha0, hb0]
  · intro g
    simp [requestsGeolocation, fromQuery, hlne, hgne, ha, queryTruthy,
      jsNumTruthy, ha0]
  · intro latP lngP h
    rcases h1 : fromQuery latP with _ | a'
    · simp [initialLocation, h1]
    · rcases h2 : fromQuery lngP with _ | b'
      · simp [initialLocation, h1, h2]
      · have hnt : ¬(jsNumTruthy a' = true ∧ jsNumTruthy b' = true) := by
          simpa [queryTruthy, h1, h2] using h
        simp [initialLocation, h1, h2, hnt]

/-- C4 witness: `lat="19.07"`, `lng="72.87"` gives exactly that pair and
never a geolocation request. -/
theorem initial_location_from_query_witness :
    initialLocation (some "19.07") (some "72.87") =
      some (some ⟨1907, 2⟩, some ⟨7287, 2⟩) ∧
    (∀ g, requestsGeolocation (some "19.07") (some "72.87") g = false) ∧
    (∀ latP lngP : Option String,
      ¬(queryTruthy (fromQuery latP) = true ∧
        queryTruthy (fromQuery lngP) = true) →
      initialLocation latP lngP = none) :=
  initial_location_from_query "19.07" "72.87" ⟨1907, 2⟩ ⟨7287, 2⟩
    (by decide) (by decide) (by decide) (by decide) (by decide) (by decide)

/-- C5 counterexample: `lat="19.07"` with `lng` absent — no
query-parameter coordinate exists, yet the geolocation request is not
issued even though the capability is available, because the effect's
guard is `!latFromQuery && !lngFromQuery` and the latitude alone is
truthy. -/
theorem geolocation_not_requested_with_partial_query :
    initialLocation (some "19.07") none = none ∧
    requestsGeolocation (some "19.07") none true = false := by decide

/-- C5 (amended): at most one geolocation request is initiated, and
(when the capability is available) it is initiated exactly when *neither*
the lat nor the lng query value is a truthy number — not merely when no
query coordinate exists; on geolocation failure the error is only
logged, there is no retry, and the state (hence the coordinate) is
unchanged. -/
theorem geolocation_gate_and_failure :
    (∀ latP lngP : Option String,
      requestsGeolocation latP lngP true = true ↔
        (queryTruthy (fromQuery latP) = false ∧
         queryTruthy (fromQuery lngP) = false)) ∧
    (∀ latP lngP : Option String, requestsGeolocation latP lngP false = false) ∧
    (∀ s msg, geoEffect s (.error msg) = s) ∧
    (∀ s d1 d2, geoEffect s (.position d1 d2) =
      { s with selectedLocation := some (some d1, some d2) }) := by
  refine ⟨?_, ?_, ?_, ?_⟩
  · intro latP lngP
    simp [requestsGeolocation]
  · intro latP lngP
    simp [requestsGeolocation]
  · intro s msg
    rfl
  · intro s d1 d2
    rfl

/-- C5 witness: with both query parameters absent and the capability
available, the one-shot request is issued; a concrete failure leaves a
concrete state untouched. -/
theorem geolocation_gate_and_failure_witness :
    (requestsGeolocation none none true = true ↔
      (queryTruthy (fromQuery none) = false ∧
       queryTruthy (fromQuery none) = false)) ∧
    requestsGeolocation none none false = false ∧
    geoEffect sampleValid (.error "permission denied") = sampleValid :=
  ⟨(geolocation_gate_and_failure).1 none none,
   (geolocation_gate_and_failure).2.1 none none,
   (geolocation_gate_and_failure).2.2.1 sampleValid "permission denied"⟩

/-- C6 counterexample: the clearing branch for short queries sits inside
the 300ms `setTimeout`, so right after a keystroke shrinking the query to
"ab" the previously shown suggestions are still there — the list is not
cleared immediately. -/
theorem suggestions_not_cleared_before_timer :
    ((searchStep { searchQuery := "abc",
                   suggestions := [⟨"19.07", "72.87", "Mumbai"⟩],
                   pending := none } (.keystroke 0 "ab")).1).suggestions =
      [⟨"19.07", "72.87", "Mumbai"⟩] ∧
    ([(⟨"19.07", "72.87", "Mumbai"⟩ : Suggestion)] : List Suggestion) ≠ [] := by
  decide

/-- C6 (amended): for every search query of length ≤ 2, when the 300ms
debounce timer scheduled by the keystroke fires, the suggestion list is
cleared without issuing a search request, regardless of the list's prior
content. -/
theorem short_query_clears_on_timer (s : SearchState) (t : ℕ) (q : String)
    (resp : Option (List Suggestion)) (hq : q.length ≤ 2) :
    (searchStep (searchStep s (.keystroke t q)).1
        (.timerFire resp)).1.suggestions = [] ∧
    (searchStep (searchStep s (.keystroke t q)).1 (.timerFire resp)).2 =
      none := by
  have hq' : ¬ (q.length > 2) := by omega
  simp [searchStep, hq']

/-- C6 witness: shrinking the query to "ab" over a non-empty list — the
firing timer empties the list and requests nothing. -/
theorem short_query_clears_on_timer_witness :
    (searchStep (searchStep { searchQuery := "abc",
                              suggestions := [⟨"19.07", "72.87", "Mumbai"⟩],
                              pending := none } (.keystroke 0 "ab")).1
        (.timerFire none)).1.suggestions = [] ∧
    (searchStep (searchStep { searchQuery := "abc",
                              suggestions := [⟨"19.07", "72.87", "Mumbai"⟩],
                              pending := none } (.keystroke 0 "ab")).1
        (.timerFire none)).2 = none :=
  short_query_clears_on_timer _ 0 "ab" none (by decide)

/-- C7: for every burst of keystrokes with queries of length > 2, each
arriving strictly within 300ms of the previous one, exactly one search
request fires — for the final query — 300ms after the last keystroke;
every earlier timer is invalidated by the following keystroke. -/
theorem debounce_burst_single_request (ks : List (ℕ × String))
    (hgap : List.Chain' (fun a b : ℕ × String => b.1 < a.1 + 300) ks)
    (hlen : ∀ p ∈ ks, 2 < p.2.length) :
    debounceRequests ks =
      ks.getLast?.elim [] (fun p => [(p.1 + 300, p.2)]) := by
  induction ks with
  | nil => rfl
  | cons hd tl ih =>
    rcases hd with ⟨t, q⟩
    rcases tl with _ | ⟨⟨t', q'⟩, rest⟩
    · have hq := hlen (t, q) (by simp)
      simp only [] at hq
      simp [debounceRequests, debounceFires, List.filter, hq]
    · have hlt : t' < t + 300 := (List.chain'_cons.mp hgap).1
      have hch := (List.chain'_cons.mp hgap).2
      have hlen' : ∀ p ∈ (t', q') :: rest, 2 < p.2.length :=
        fun p hp => hlen p (by simp at hp ⊢; tauto)
      calc debounceRequests ((t, q) :: (t', q') :: rest)
          = debounceRequests ((t', q') :: rest) := by
            simp [debounceRequests, debounceFires, hlt]
        _ = _ := by rw [ih hch hlen', List.getLast?_cons_cons]

/-- C7 witness: keystrokes "abc" at t=0 and "abcd" at t=100 — one
request, for "abcd", at t=400. -/
theorem debounce_burst_single_request_witness :
    debounceRequests [(0, "abc"), (100, "abcd")] =
      ([(0, "abc"), (100, "abcd")] : List (ℕ × String)).getLast?.elim []
        (fun p => [(p.1 + 300, p.2)]) :=
  debounce_burst_single_request [(0, "abc"), (100, "abcd")]
    (by simp [List.chain'_cons]) (by decide)

/-- C8: submitting the search form equals selecting the first suggestion
when the list is non-empty and is a no-op on the state when it is empty;
selecting a suggestion sets the coordinate to the suggestion's lat/lon
strings parsed as numbers, sets the query text to its display name, and
clears the list. -/
theorem search_submit_selects_first (s : PageState) :
    (s.suggestions = [] → handleSearchSubmit s = s) ∧
    (∀ p rest, s.suggestions = p :: rest →
      handleSearchSubmit s = handleSuggestionClick s p ∧
      (handleSearchSubmit s).selectedLocation =
        some (parseFloat p.lat, parseFloat p.lon) ∧
      (handleSearchSubmit s).searchQuery = p.display_name ∧
      (handleSearchSubmit s).suggestions = []) := by
  constructor
  · intro h
    simp [handleSearchSubmit, h]
  · intro p rest h
    simp [handleSearchSubmit, h, handleSuggestionClick]

/-- C8 witness: a concrete one-element suggestion list. -/
theorem search_submit_selects_first_witness :
    handleSearchSubmit
        { sampleValid with suggestions := [⟨"19.07", "72.87", "Mumbai, India"⟩] } =
      handleSuggestionClick
        { sampleValid with suggestions := [⟨"19.07", "72.87", "Mumbai, India"⟩] }
        ⟨"19.07", "72.87", "Mumbai, India"⟩ ∧
    (handleSearchSubmit
        { sampleValid with
            suggestions := [⟨"19.07", "72.87", "Mumbai, India"⟩] }).selectedLocation =
      some (parseFloat "19.07", parseFloat "72.87") ∧
    (handleSearchSubmit
        { sampleValid with
            suggestions := [⟨"19.07", "72.87", "Mumbai, India"⟩] }).searchQuery =
      "Mumbai, India" ∧
    (handleSearchSubmit
        { sampleValid with
            suggestions := [⟨"19.07", "72.87", "Mumbai, India"⟩] }).suggestions =
      [] :=
  (search_submit_selects_first
      { sampleValid with suggestions := [⟨"19.07", "72.87", "Mumbai, India"⟩] }).2
    ⟨"19.07", "72.87", "Mumbai, India"⟩ [] rfl

/-- C9 counterexample: the validation failure is user-visible through the
same status line, but its message does not contain "Failed", so the
status line styles it like a success message — it is not distinguished
from success by containing the failure word. -/
theorem validation_failure_not_failure_styled :
    (handleSubmit sampleInvalid (.response 200 .empty)).submitMessage =
      validationMsg ∧
    failureStyled validationMsg = false ∧
    failureStyled "Report submitted successfully!" = false := by decide

/-- C9 (amended): submission network failures and submission HTTP
failures surface through the single status line with a message containing
"Failed", and are thereby styled as failures while the success message is
not; the validation failure uses the same status line but its message
does not contain "Failed", so it is styled like a success message. -/
theorem submission_failures_failure_styled (s : PageState)
    (loc : JSNum × JSNum)
    (hd : s.description ≠ "") (hloc : s.selectedLocation = some loc)
    (hr : s.rating ≠ 0) :
    (∀ m, failureStyled (handleSubmit s (.netError m)).submitMessage = true) ∧
    (∀ status rbody, respOk status = false →
      failureStyled
        (handleSubmit s (.response status rbody)).submitMessage = true) ∧
    failureStyled "Report submitted successfully!" = false ∧
    failureStyled validationMsg = false := by
  refine ⟨?_, ?_, by decide, by decide⟩
  · intro m
    have h : (handleSubmit s (.netError m)).submitMessage =
        "Failed to submit report. " ++ m := by
      simp [handleSubmit, handleSubmitTrace, hloc, hd, hr, runActions,
        applyAction]
    rw [h]
    exact strIncludes_failed m
  · intro status rbody hok
    have h : (handleSubmit s (.response status rbody)).submitMessage =
        "Failed to submit report. " ++ errMsgOf status rbody := by
      simp [handleSubmit, handleSubmitTrace, hloc, hd, hr, hok, runActions,
        applyAction]
    rw [h]
    exact strIncludes_failed _

/-- C9 witness: a concrete network failure is failure-styled. -/
theorem submission_failures_failure_styled_witness :
    failureStyled
      (handleSubmit sampleValid (.netError "network down")).submitMessage =
      true :=
  (submission_failures_failure_styled sampleValid
      (some ⟨1907, 2⟩, some ⟨7287, 2⟩) (by decide) rfl (by decide)).1
    "network down"

/-- C10: a successful submission mutates only description, rating,
coordinate, status message and the submitting flag; the search query, the
suggestion list, the hover rating and the user identifier are left
unchanged. -/
theorem submit_success_frame (s : PageState) (loc : JSNum × JSNum)
    (status : ℕ) (rbody : RespBody)
    (hd : s.description ≠ "") (hloc : s.selectedLocation = some loc)
    (hr : s.rating ≠ 0) (hok : respOk status = true) :
    (handleSubmit s (.response status rbody)).searchQuery = s.searchQuery ∧
    (handleSubmit s (.response status rbody)).suggestions = s.suggestions ∧
    (handleSubmit s (.response status rbody)).hoverRating = s.hoverRating ∧
    (handleSubmit s (.response status rbody)).userId = s.userId ∧
    (handleSubmit s (.response status rbody)).description = "" ∧
    (handleSubmit s (.response status rbody)).rating = 0 ∧
    (handleSubmit s (.response status rbody)).selectedLocation = none ∧
    (handleSubmit s (.response status rbody)).submitMessage =
      "Report submitted successfully!" ∧
    (handleSubmit s (.response status rbody)).submitting = false := by
  simp [handleSubmit, handleSubmitTrace, hloc, hd, hr, hok, runActions,
    applyAction]

/-- C10 witness: the sample valid draft on HTTP 200. -/
theorem submit_success_frame_witness :
    (handleSubmit sampleValid (.response 200 .empty)).searchQuery =
      sampleValid.searchQuery ∧
    (handleSubmit sampleValid (.response 200 .empty)).suggestions =
      sampleValid.suggestions ∧
    (handleSubmit sampleValid (.response 200 .empty)).hoverRating =
      sampleValid.hoverRating ∧
    (handleSubmit sampleValid (.response 200 .empty)).userId =
      sampleValid.userId ∧
    (handleSubmit sampleValid (.response 200 .empty)).description = "" ∧
    (handleSubmit sampleValid (.response 200 .empty)).rating = 0 ∧
    (handleSubmit sampleValid (.response 200 .empty)).selectedLocation =
      none ∧
    (handleSubmit sampleValid (.response 200 .empty)).submitMessage =
      "Report submitted successfully!" ∧
    (handleSubmit sampleValid (.response 200 .empty)).submitting = false :=
  submit_success_frame sampleValid (some ⟨1907, 2⟩, some ⟨7287, 2⟩) 200 .empty
    (by decide) rfl (by decide) (by decide)

end ReportPage
